import Mathlib

/-!
# deleteUserfunctionality.js

A shallow embedding of the Express application in `deleteUserfunctionality.js`:
the two pass-through middlewares, the `delete_user_by_username` controller,
the `POST /auth/delete/user` route and the `GET /profile` page.

JavaScript values are a first-order datatype, the `req`/`res` pair and the
user store are passed explicitly, and an `async` function returns how its
promise settles.
-/

namespace DeleteUser

/-! ## JavaScript values -/

/-- JavaScript numbers: the finite doubles are rationals (every finite double
is one), next to the three non-finite values and the negative zero. -/
inductive JSNum where
  | nan
  | posInf
  | negInf
  | negZero
  | fin (q : ℚ)

/-- JavaScript values. An object is the list of the properties a read can reach
on it (own and inherited alike, so `new Error()` carries `message: ""`);
arrays and functions are objects. -/
inductive JSVal where
  | undefined
  | null
  | bool (b : Bool)
  | num (n : JSNum)
  | bigint (i : Int)
  | str (s : String)
  | symbol (description : String)
  | obj (props : List (String × JSVal))

/-- The number `n` as a JavaScript value. -/
def JSVal.ofNat (n : Nat) : JSVal := .num (.fin n)

/-- ToBoolean: the falsy values are `undefined`, `null`, `false`, `+0`, `-0`,
`NaN`, `0n` and `""`; every other value is truthy. -/
def truthy : JSVal → Bool
  | .undefined => false
  | .null => false
  | .bool b => b
  | .num .nan => false
  | .num .negZero => false
  | .num (.fin q) => decide (q ≠ 0)
  | .num _ => true
  | .bigint i => decide (i ≠ 0)
  | .str s => decide (s ≠ "")
  | .symbol _ => true
  | .obj _ => true

/-- The test `v === 0`: true for the numbers `+0` and `-0` only (`0n === 0`
and `"0" === 0` are false). -/
def strictEqualsZero : JSVal → Bool
  | .num .negZero => true
  | .num (.fin q) => decide (q = 0)
  | _ => false

/-- Reading property `key` of `v` (`v.key`, or `const { key } = v`): `none`
when the read throws a TypeError, which is when `v` is `undefined` or `null`.
On a primitive the read goes to the wrapper prototype, which has neither a
`username` nor a `message` property, the only two keys the program reads. -/
def getProp (v : JSVal) (key : String) : Option JSVal :=
  match v with
  | .undefined => none
  | .null => none
  | .obj props => some ((props.lookup key).getD .undefined)
  | _ => some .undefined

/-- A TypeError raised by the runtime, with its message. -/
def typeError (message : String) : JSVal :=
  .obj [("name", .str "TypeError"), ("message", .str message)]

mutual
/-- Whether `JSON.stringify` meets a BigInt while serialising the value, in
which case it throws a TypeError. -/
def hasBigInt : JSVal → Bool
  | .bigint _ => true
  | .obj props => hasBigIntProps props
  | _ => false
/-- Whether one of the properties holds a BigInt. -/
def hasBigIntProps : List (String × JSVal) → Bool
  | [] => false
  | (_, v) :: rest => hasBigInt v || hasBigIntProps rest
end

/-! ## Requests, responses and the exchange state -/

/-- An incoming request: what identifies the caller (headers, cookies), the
query parameters, and the parsed body `req.body`. -/
structure Request where
  headers : List (String × String)
  query : List (String × String)
  body : JSVal

/-- A response written with `res.status(status).json(body)`: `body` is the
value handed to `res.json`. -/
structure Response where
  status : Nat
  body : JSVal

/-- What one run of a handler leaves behind: the responses written to `res`
and the `destroy` calls issued (both oldest first), and the store. -/
structure Effects (σ : Type) where
  sent : List Response
  calls : List JSVal
  store : σ

/-- The user store operation `UserModel.destroy(options)` awaited: from the
options and the store state, the value the promise resolves to (`Except.ok`)
or the value it rejects with (`Except.error`), and the new store state.
`./models/user` is not part of the source file, so it is a parameter. -/
abbrev Destroy (σ : Type) := JSVal → σ → Except JSVal JSVal × σ

/-- How a call of an `async` function ends: its effects, and whether the
promise it returned resolved (`Except.ok`) or rejected with a value. -/
abbrev Outcome (σ : Type) := Except JSVal Unit × Effects σ

/-- How V8 names a value that has no properties in a TypeError message. -/
def nullishName : JSVal → String
  | .null => "null"
  | _ => "undefined"

/-- The message V8 gives the TypeError of `const { username } = req.body` on
a body that is `null` or `undefined`. -/
def cannotDestructure (body : JSVal) : String :=
  "Cannot destructure property \x27username\x27 of \x27req.body\x27 as it is "
    ++ nullishName body ++ "."

/-- The message V8 gives the TypeError of `error.message` on an `error` that
is `null` or `undefined`. -/
def cannotReadMessage (error : JSVal) : String :=
  "Cannot read properties of " ++ nullishName error ++ " (reading \x27message\x27)"

/-- The message of the TypeError `JSON.stringify` throws on a BigInt. -/
def cannotSerialize : String := "Do not know how to serialize a BigInt"

/-- The call `res.status(status).json(body)`: `JSON.stringify` throws a
TypeError on a BigInt and nothing is written; otherwise the response is
written. -/
def Effects.json {σ : Type} (fx : Effects σ) (status : Nat) (body : JSVal) : Outcome σ :=
  if hasBigInt body then
    (.error (typeError cannotSerialize), fx)
  else
    (.ok (), { fx with sent := fx.sent ++ [⟨status, body⟩] })

/-! ## The controller -/

/-- The body `{ ok: false, message: "Username is required" }`. -/
def usernameRequired : JSVal :=
  .obj [("ok", .bool false), ("message", .str "Username is required")]

/-- The body `{ ok: false, message: "User not found" }`. -/
def userNotFound : JSVal :=
  .obj [("ok", .bool false), ("message", .str "User not found")]

/-- The body `{ ok: true, message: "User deleted successfully" }`. -/
def userDeleted : JSVal :=
  .obj [("ok", .bool true), ("message", .str "User deleted successfully")]

/-- The body `{ ok: false, message: "Failed to delete user", error: m }`. -/
def failedToDelete (m : JSVal) : JSVal :=
  .obj [("ok", .bool false), ("message", .str "Failed to delete user"), ("error", m)]

/-- The argument `{ where: { username } }` of `UserModel.destroy`. -/
def destroyOptions (username : JSVal) : JSVal :=
  .obj [("where", .obj [("username", username)])]

/-- The `try` block of `delete_user_by_username` (lines 26-39). -/
def delete_user_by_username_try {σ : Type} (destroy : Destroy σ) (req : Request)
    (fx : Effects σ) : Outcome σ :=
  match getProp req.body "username" with
  | none =>
    (.error (typeError (cannotDestructure req.body)), fx)
  | some username =>
    if !(truthy username) then
      fx.json 400 usernameRequired
    else
      match destroy (destroyOptions username) fx.store with
      | (.error e, store) =>
        (.error e, { fx with calls := fx.calls ++ [destroyOptions username], store := store })
      | (.ok result, store) =>
        let fx1 : Effects σ :=
          { fx with calls := fx.calls ++ [destroyOptions username], store := store }
        if strictEqualsZero result then
          fx1.json 404 userNotFound
        else
          fx1.json 200 userDeleted

/-- The controller `delete_user_by_username` (lines 24-43): the `try` block,
and the `catch` block that reads `error.message` and answers 500. A throw
inside the `catch` block rejects the promise the function returns. -/
def delete_user_by_username {σ : Type} (destroy : Destroy σ) (req : Request)
    (fx : Effects σ) : Outcome σ :=
  match delete_user_by_username_try destroy req fx with
  | (.ok (), fx1) => (.ok (), fx1)
  | (.error error, fx1) =>
    match getProp error "message" with
    | none =>
      (.error (typeError (cannotReadMessage error)), fx1)
    | some m => fx1.json 500 (failedToDelete m)

/-- The state in which a request reaches the controller: nothing written to
`res`, no store call issued yet. -/
def Effects.start {σ : Type} (store : σ) : Effects σ :=
  { sent := [], calls := [], store := store }

/-! ## The middlewares and the route -/

/-- The `req`/`res` pair and the store while a request travels down a route's
stack, with the number of times a middleware has called `next` so far. -/
structure Exchange (σ : Type) where
  req : Request
  fx : Effects σ
  nextCalls : Nat

/-- The middleware `authentication` (lines 13-16): its body is the call
`next()`. The continuation `next` is what Express runs on that call, in the
exchange as the middleware left it. -/
def authentication {σ α : Type} (next : Exchange σ → α) (x : Exchange σ) : α :=
  next x

/-- The middleware factory `authorisation` (lines 18-21): the middleware built
for the option `isAdmin` has the call `next()` for its body. -/
def authorisation {σ α : Type} (_isAdmin : JSVal) (next : Exchange σ → α)
    (x : Exchange σ) : α :=
  next x

/-- The `next` Express hands to a layer of a route: it counts the call and
runs the rest of the stack. -/
def express_next {σ α : Type} (rest : Exchange σ → α) (x : Exchange σ) : α :=
  rest { x with nextCalls := x.nextCalls + 1 }

/-- What Express does with the promise a route handler returns when that
promise rejects with `e`: the responses it writes. Express is a library the
source requires at no pinned version, so this is a parameter of the route. -/
abbrev OnRejected := JSVal → List Response

/-- Express 4 ignores the value a handler returns: on a rejection it writes
nothing, and the request is left without an answer. -/
def express4 : OnRejected := fun _ => []

/-- Express 5 turns a rejection into `next(err)`; the source registers no error
middleware, so the default error handler answers. For an error that carries no
status of its own, as the TypeErrors the controller rejects with, the answer
is 500 with an error page `page e`, whose text depends on the environment. -/
def express5 (page : JSVal → JSVal) : OnRejected := fun e => [⟨500, page e⟩]

/-- The last layer of the route (line 50): `(req, res) =>
delete_user_by_username(req, res)`. The arrow function returns the
controller's promise to Express, which acts on a rejection. -/
def delete_layer {σ : Type} (onRejected : OnRejected) (destroy : Destroy σ)
    (x : Exchange σ) : Exchange σ :=
  match delete_user_by_username destroy x.req x.fx with
  | (.ok (), fx) => { x with fx := fx }
  | (.error e, fx) => { x with fx := { fx with sent := fx.sent ++ onRejected e } }

/-- The route `POST /auth/delete/user` (lines 46-51): `authentication`, then
`authorisation({ isAdmin: false })`, then the controller. -/
def post_auth_delete_user {σ : Type} (onRejected : OnRejected) (destroy : Destroy σ)
    (x : Exchange σ) : Exchange σ :=
  authentication
    (express_next
      (authorisation (.bool false) (express_next (delete_layer onRejected destroy)))) x

/-! ## The profile page -/

/-- The lines of the document `GET /profile` sends (the template literal of
lines 55-100, which has no substitution in it). -/
def profile_lines : List String :=
  [
   "",
   "    <!DOCTYPE html>",
   "    <html lang=\"en\">",
   "    <head>",
   "        <meta charset=\"UTF-8\">",
   "        <meta name=\"viewport\" content=\"width=device-width, initial-scale=1.0\">",
   "        <title>User Profile</title>",
   "    </head>",
   "    <body>",
   "        <h1>User Profile</h1>",
   "",
   "        <!\x2d\x2d Form to delete a user by username \x2d\x2d>",
   "        <form id=\"delete-user-form\">",
   "            <label for=\"other-username\">Enter Username to Delete:</label>",
   "            <input type=\"text\" id=\"other-username\" name=\"other-username\" required>",
   "            <button type=\"submit\">Delete User</button>",
   "        </form>",
   "",
   "        <script>",
   "            document.getElementById(\"delete-user-form\").addEventListener(\"submit\", async (event) => \x7b",
   "                event.preventDefault();",
   "                const username = document.getElementById(\"other-username\").value;",
   "",
   "                // Sending a POST request to delete the user by username",
   "                const response = await fetch(\x27/auth/delete/user\x27, \x7b",
   "                    method: \"POST\",",
   "                    headers: \x7b",
   "                        \"Content-Type\": \"application/json\"",
   "                    \x7d,",
   "                    body: JSON.stringify(\x7b username \x7d),",
   "                    credentials: \"include\"",
   "                \x7d);",
   "",
   "                const result = await response.json();",
   "",
   "                // Handling the response",
   "                if (result.ok) \x7b",
   "                    alert(\x27User deleted successfully\x27);",
   "                \x7d else \x7b",
   "                    alert(result.message);",
   "                \x7d",
   "            \x7d);",
   "        </script>",
   "    </body>",
   "    </html>",
   "    "
  ]

/-- The document `GET /profile` sends. -/
def profile_page : String := String.intercalate "\n" profile_lines

/-- The handler of `GET /profile` (lines 54-101): the argument of `res.send`. -/
def get_profile (_req : Request) : String := profile_page

/-- The page's form (lines 67-71). -/
def profile_form : List String := (profile_lines.drop 12).take 5

/-- The page's inline script (lines 73-97). -/
def profile_script : List String := (profile_lines.drop 18).take 25

/-- A call `fetch(url, init)`; `json` is the value `JSON.stringify` turns into
the body. -/
structure FetchCall where
  url : String
  method : String
  headers : List (String × String)
  json : JSVal
  credentials : String

/-- The submit listener of the inline script up to its `fetch` (lines 74-86):
`value` is what `document.getElementById("other-username").value` reads. -/
def submit_listener_fetch (value : String) : FetchCall :=
  let username : JSVal := .str value
  { url := "/auth/delete/user",
    method := "POST",
    headers := [("Content-Type", "application/json")],
    json := .obj [("username", username)],
    credentials := "include" }

/-! ## A user store -/

/-- A user record: its username, and attributes the system does not define. -/
structure User where
  username : String
  attributes : List (String × String)

/-- Modelled from the spec: `UserModel.destroy` of `./models/user`, a module
the source file requires and does not contain. The user store holds records
keyed by username; the delete-by-criteria operation removes every record whose
username is exactly the string given as `where.username` and reports the
number of records removed. It raises no error. -/
def UserModel.destroy : Destroy (List User) := fun options users =>
  match (getProp options "where").bind (fun w => getProp w "username") with
  | some (.str u) =>
    (.ok (JSVal.ofNat (users.filter (fun r => r.username == u)).length),
      users.filter (fun r => r.username != u))
  | _ => (.ok (JSVal.ofNat 0), users)

/-! ## Sample inputs -/

/-- The request the profile page posts for the input value `value`: a JSON
body `{ username: value }` and no credentials. -/
def delete_request (value : String) : Request :=
  { headers := [("Content-Type", "application/json")],
    query := [],
    body := .obj [("username", .str value)] }

/-- A store operation that reports `rows` rows affected and leaves the store
as it is. -/
def reports {σ : Type} (rows : Nat) : Destroy σ :=
  fun _ store => (.ok (JSVal.ofNat rows), store)

/-- A store operation that raises `e` and leaves the store as it is. -/
def raises {σ : Type} (e : JSVal) : Destroy σ :=
  fun _ store => (.error e, store)

/-- The value `new Error(message)`. -/
def newError (message : String) : JSVal :=
  .obj [("name", .str "Error"), ("message", .str message)]

/-! ## Evaluation lemmas -/

theorem json_of_no_bigint {σ : Type} (fx : Effects σ) (status : Nat) (body : JSVal)
    (h : hasBigInt body = false) :
    fx.json status body = (.ok (), { fx with sent := fx.sent ++ [⟨status, body⟩] }) := by
  simp [Effects.json, h]

theorem json_of_bigint {σ : Type} (fx : Effects σ) (status : Nat) (body : JSVal)
    (h : hasBigInt body = true) :
    fx.json status body
      = (.error (typeError cannotSerialize), fx) := by
  simp [Effects.json, h]

theorem hasBigInt_usernameRequired : hasBigInt usernameRequired = false := by
  simp [usernameRequired, hasBigInt, hasBigIntProps]

theorem hasBigInt_userNotFound : hasBigInt userNotFound = false := by
  simp [userNotFound, hasBigInt, hasBigIntProps]

theorem hasBigInt_userDeleted : hasBigInt userDeleted = false := by
  simp [userDeleted, hasBigInt, hasBigIntProps]

theorem hasBigInt_failedToDelete (m : JSVal) :
    hasBigInt (failedToDelete m) = hasBigInt m := by
  simp [failedToDelete, hasBigInt, hasBigIntProps]

/-- The controller on a body that cannot be destructured (`null`, `undefined`):
the TypeError is caught and answered 500. -/
theorem run_unreadable {σ : Type} (destroy : Destroy σ) (req : Request) (fx : Effects σ)
    (hb : getProp req.body "username" = none) :
    delete_user_by_username destroy req fx
      = (.ok (), { fx with
          sent := fx.sent ++ [⟨500, failedToDelete (.str (cannotDestructure req.body))⟩] }) := by
  have hj := json_of_no_bigint fx 500 (failedToDelete (.str (cannotDestructure req.body)))
    (by rw [hasBigInt_failedToDelete]; rfl)
  unfold delete_user_by_username delete_user_by_username_try
  rw [hb]
  exact hj

/-- The controller on a falsy `username`. -/
theorem run_falsy {σ : Type} (destroy : Destroy σ) (req : Request) (fx : Effects σ)
    (v : JSVal) (hb : getProp req.body "username" = some v) (ht : truthy v = false) :
    delete_user_by_username destroy req fx
      = (.ok (), { fx with sent := fx.sent ++ [⟨400, usernameRequired⟩] }) := by
  unfold delete_user_by_username delete_user_by_username_try
  rw [hb]
  simp only [ht, Bool.not_false, if_true,
    json_of_no_bigint fx 400 usernameRequired hasBigInt_usernameRequired]

/-- The controller on a truthy `username` when the store returns `result`. -/
theorem run_returned {σ : Type} (destroy : Destroy σ) (req : Request) (fx : Effects σ)
    (v result : JSVal) (store1 : σ)
    (hb : getProp req.body "username" = some v) (ht : truthy v = true)
    (hd : destroy (destroyOptions v) fx.store = (.ok result, store1)) :
    delete_user_by_username destroy req fx
      = (.ok (),
          { sent := fx.sent ++
              [if strictEqualsZero result then ⟨404, userNotFound⟩ else ⟨200, userDeleted⟩],
            calls := fx.calls ++ [destroyOptions v],
            store := store1 }) := by
  unfold delete_user_by_username delete_user_by_username_try
  rw [hb]
  simp only [ht, Bool.not_true, Bool.false_eq_true, if_false, hd]
  cases hz : strictEqualsZero result
  · simp only [Bool.false_eq_true, if_false,
      json_of_no_bigint _ 200 userDeleted hasBigInt_userDeleted]
  · simp only [if_true, json_of_no_bigint _ 404 userNotFound hasBigInt_userNotFound]

/-- The controller on a truthy `username` when the store raises `e`: the
`catch` block reads `e.message` and hands the 500 body to `res.json`. -/
theorem run_raised {σ : Type} (destroy : Destroy σ) (req : Request) (fx : Effects σ)
    (v e : JSVal) (store1 : σ)
    (hb : getProp req.body "username" = some v) (ht : truthy v = true)
    (hd : destroy (destroyOptions v) fx.store = (.error e, store1)) :
    delete_user_by_username destroy req fx
      = (match getProp e "message" with
        | none =>
          (.error (typeError (cannotReadMessage e)),
            { fx with calls := fx.calls ++ [destroyOptions v], store := store1 })
        | some m =>
          Effects.json { fx with calls := fx.calls ++ [destroyOptions v], store := store1 }
            500 (failedToDelete m)) := by
  unfold delete_user_by_username delete_user_by_username_try
  rw [hb]
  simp only [ht, Bool.not_true, Bool.false_eq_true, if_false, hd]

theorem getProp_obj (props : List (String × JSVal)) (key : String) :
    getProp (.obj props) key = some ((props.lookup key).getD .undefined) := by
  rfl

/-- Reading `username` off a body that holds a string there. -/
theorem getProp_username {props : List (String × JSVal)} {u : String} {body : JSVal}
    (hbody : body = .obj props) (hu : props.lookup "username" = some (.str u)) :
    getProp body "username" = some (.str u) := by
  simp [getProp, hbody, hu]

theorem truthy_str {u : String} (hne : u ≠ "") : truthy (.str u) = true := by
  simp [truthy, hne]

theorem strictEqualsZero_ofNat (n : Nat) :
    strictEqualsZero (JSVal.ofNat n) = decide (n = 0) := by
  simp [strictEqualsZero, JSVal.ofNat]

/-- What the controller does when the store raises a value whose message is a
string. -/
theorem outcome_of_store_error {σ : Type} (destroy : Destroy σ) (req : Request)
    (store store1 : σ) (props : List (String × JSVal)) (u : String) (e : JSVal) (m : String)
    (hbody : req.body = .obj props)
    (hu : props.lookup "username" = some (.str u)) (hne : u ≠ "")
    (hstore : destroy (destroyOptions (.str u)) store = (.error e, store1))
    (hm : getProp e "message" = some (.str m)) :
    delete_user_by_username destroy req (Effects.start store)
      = (.ok (),
          { sent := [⟨500, failedToDelete (.str m)⟩],
            calls := [destroyOptions (.str u)],
            store := store1 }) := by
  rw [run_raised destroy req (Effects.start store) (.str u) e store1
    (getProp_username hbody hu) (truthy_str hne) hstore, hm]
  exact json_of_no_bigint _ 500 _ (by rw [hasBigInt_failedToDelete]; rfl)

/-- What the controller does when the store reports a number of rows. -/
theorem outcome_of_store_rows {σ : Type} (destroy : Destroy σ) (req : Request)
    (store store1 : σ) (props : List (String × JSVal)) (u : String) (n : Nat)
    (hbody : req.body = .obj props)
    (hu : props.lookup "username" = some (.str u)) (hne : u ≠ "")
    (hstore : destroy (destroyOptions (.str u)) store = (.ok (JSVal.ofNat n), store1)) :
    delete_user_by_username destroy req (Effects.start store)
      = (.ok (),
          { sent := [if n = 0 then ⟨404, userNotFound⟩ else ⟨200, userDeleted⟩],
            calls := [destroyOptions (.str u)],
            store := store1 }) := by
  rw [run_returned destroy req (Effects.start store) (.str u) (JSVal.ofNat n) store1
    (getProp_username hbody hu) (truthy_str hne) hstore, strictEqualsZero_ofNat]
  by_cases hn : n = 0 <;> simp [hn, Effects.start]

/-- The modelled store, asked to delete the username `u`. -/
theorem UserModel_destroy_str (u : String) (users : List User) :
    UserModel.destroy (destroyOptions (.str u)) users
      = (.ok (JSVal.ofNat (users.filter (fun r => r.username == u)).length),
          users.filter (fun r => r.username != u)) := by
  rfl

/-! ## The controller's four answers -/

/-- C1, as stated, fails: a request that comes without a body (`req.body` is
`undefined`) has no `username` field, and it is answered 500, not 400. -/
theorem bodyless_request_is_500 :
    delete_user_by_username (reports 1)
        { headers := [], query := [], body := .undefined } (Effects.start ())
      = (.ok (),
          { sent := [⟨500, .obj [("ok", .bool false),
                                 ("message", .str "Failed to delete user"),
                                 ("error", .str (cannotDestructure .undefined))]⟩],
            calls := [],
            store := () }) := by
  rw [run_unreadable (reports 1) { headers := [], query := [], body := .undefined }
    (Effects.start ()) rfl]
  rfl

/-- C1, amended: a request whose body is there (`req.body` is neither
`undefined` nor `null`) and has no `username` field, or has the empty string
there, is answered 400 with `{ ok: false, message: "Username is required" }`,
whatever the store and its state; the store is not touched. -/
theorem missing_username_is_400 {σ : Type} (destroy : Destroy σ) (req : Request) (store : σ)
    (hundefined : req.body ≠ .undefined) (hnull : req.body ≠ .null)
    (h : ∀ props, req.body = .obj props →
      props.lookup "username" = none ∨ props.lookup "username" = some (.str "")) :
    delete_user_by_username destroy req (Effects.start store)
      = (.ok (),
          { sent := [⟨400, .obj [("ok", .bool false), ("message", .str "Username is required")]⟩],
            calls := [],
            store := store }) := by
  have hfalsy : ∃ v, getProp req.body "username" = some v ∧ truthy v = false := by
    cases hb : req.body with
    | undefined => exact absurd hb hundefined
    | null => exact absurd hb hnull
    | obj props =>
      rcases h props hb with h1 | h1
      · exact ⟨.undefined, by simp [getProp, h1], rfl⟩
      · exact ⟨.str "", by simp [getProp, h1], by decide⟩
    | bool b => exact ⟨.undefined, rfl, rfl⟩
    | num n => exact ⟨.undefined, rfl, rfl⟩
    | bigint i => exact ⟨.undefined, rfl, rfl⟩
    | str t => exact ⟨.undefined, rfl, rfl⟩
    | symbol d => exact ⟨.undefined, rfl, rfl⟩
  obtain ⟨v, hv, hf⟩ := hfalsy
  exact run_falsy destroy req (Effects.start store) v hv hf

/-- Witness of C1 amended: a body without `username`, on a store that would
otherwise report a deletion. -/
theorem missing_username_is_400_witness :
    delete_user_by_username (reports 1)
        { headers := [], query := [], body := .obj [("name", .str "alice")] }
        (Effects.start ())
      = (.ok (),
          { sent := [⟨400, .obj [("ok", .bool false), ("message", .str "Username is required")]⟩],
            calls := [],
            store := () }) :=
  missing_username_is_400 (reports 1)
    { headers := [], query := [], body := .obj [("name", .str "alice")] } ()
    (by intro hb; cases hb) (by intro hb; cases hb)
    (by intro props hb; cases hb; exact Or.inl rfl)

/-- C2: for a non-empty string `username`, when the store's delete returns
without error and reports zero rows affected, the answer is 404 with
`{ ok: false, message: "User not found" }`. -/
theorem zero_rows_is_404 {σ : Type} (destroy : Destroy σ) (req : Request) (store store1 : σ)
    (props : List (String × JSVal)) (u : String) (hbody : req.body = .obj props)
    (hu : props.lookup "username" = some (.str u)) (hne : u ≠ "")
    (hstore : destroy (destroyOptions (.str u)) store = (.ok (JSVal.ofNat 0), store1)) :
    delete_user_by_username destroy req (Effects.start store)
      = (.ok (),
          { sent := [⟨404, .obj [("ok", .bool false), ("message", .str "User not found")]⟩],
            calls := [destroyOptions (.str u)],
            store := store1 }) := by
  rw [outcome_of_store_rows destroy req store store1 props u 0 hbody hu hne hstore]
  rfl

/-- Witness of C2: deleting "alice" on a store that reports no row. -/
theorem zero_rows_is_404_witness :
    delete_user_by_username (reports 0) (delete_request "alice") (Effects.start ())
      = (.ok (),
          { sent := [⟨404, .obj [("ok", .bool false), ("message", .str "User not found")]⟩],
            calls := [destroyOptions (.str "alice")],
            store := () }) :=
  zero_rows_is_404 (reports 0) (delete_request "alice") () ()
    [("username", .str "alice")] "alice" rfl rfl (by decide) rfl

/-- C3: for a non-empty string `username`, when the store's delete returns
without error and reports `n >= 1` rows affected, the answer is 200 with
`{ ok: true, message: "User deleted successfully" }`, the same for every `n`. -/
theorem some_rows_is_200 {σ : Type} (destroy : Destroy σ) (req : Request) (store store1 : σ)
    (props : List (String × JSVal)) (u : String) (n : Nat) (hbody : req.body = .obj props)
    (hu : props.lookup "username" = some (.str u)) (hne : u ≠ "") (hn : 1 ≤ n)
    (hstore : destroy (destroyOptions (.str u)) store = (.ok (JSVal.ofNat n), store1)) :
    delete_user_by_username destroy req (Effects.start store)
      = (.ok (),
          { sent := [⟨200, .obj [("ok", .bool true),
                                 ("message", .str "User deleted successfully")]⟩],
            calls := [destroyOptions (.str u)],
            store := store1 }) := by
  have hn0 : n ≠ 0 := by omega
  rw [outcome_of_store_rows destroy req store store1 props u n hbody hu hne hstore, if_neg hn0]
  rfl

/-- Witness of C3: deleting "alice" on a store that reports three rows. -/
theorem some_rows_is_200_witness :
    delete_user_by_username (reports 3) (delete_request "alice") (Effects.start ())
      = (.ok (),
          { sent := [⟨200, .obj [("ok", .bool true),
                                 ("message", .str "User deleted successfully")]⟩],
            calls := [destroyOptions (.str "alice")],
            store := () }) :=
  some_rows_is_200 (reports 3) (delete_request "alice") () ()
    [("username", .str "alice")] "alice" 3 rfl rfl (by decide) (by decide) rfl

/-- C4, as stated, fails: when the store rejects with `undefined`, reading
`error.message` in the `catch` block throws, and when it raises an error whose
message is the BigInt `10n`, `res.json` throws; either way no response is sent
and a TypeError leaves the handler. -/
theorem raised_value_escapes_catch :
    (delete_user_by_username (raises .undefined) (delete_request "alice")
        (Effects.start ())).1 = .error (typeError (cannotReadMessage .undefined))
      ∧ (delete_user_by_username (raises .undefined) (delete_request "alice")
        (Effects.start ())).2.sent = []
      ∧ (delete_user_by_username (raises (.obj [("message", .bigint 10)]))
        (delete_request "alice") (Effects.start ())).1 = .error (typeError cannotSerialize)
      ∧ (delete_user_by_username (raises (.obj [("message", .bigint 10)]))
        (delete_request "alice") (Effects.start ())).2.sent = [] := by
  have h1 := run_raised (raises .undefined) (delete_request "alice") (Effects.start ())
    (.str "alice") .undefined () rfl (by decide) rfl
  have h2 := run_raised (raises (.obj [("message", .bigint 10)])) (delete_request "alice")
    (Effects.start ()) (.str "alice") (.obj [("message", .bigint 10)]) () rfl (by decide) rfl
  rw [h1, h2]
  exact ⟨rfl, rfl, rfl, rfl⟩

/-- C4, amended: for a non-empty string `username`, when the store's delete
raises an error `e` whose `message` can be read (`e` is not `null` or
`undefined`) and serialised (it holds no BigInt), the answer is 500, with
`{ ok: false, message: "Failed to delete user", error: m }` handed to
`res.json` where `m` is `e.message` itself, and the promise of the handler
resolves: nothing is thrown out of it. -/
theorem store_error_is_500 {σ : Type} (destroy : Destroy σ) (req : Request) (store store1 : σ)
    (props : List (String × JSVal)) (u : String) (e m : JSVal)
    (hbody : req.body = .obj props)
    (hu : props.lookup "username" = some (.str u)) (hne : u ≠ "")
    (hstore : destroy (destroyOptions (.str u)) store = (.error e, store1))
    (hm : getProp e "message" = some m) (hserial : hasBigInt m = false) :
    delete_user_by_username destroy req (Effects.start store)
      = (.ok (),
          { sent := [⟨500, .obj [("ok", .bool false),
                                 ("message", .str "Failed to delete user"),
                                 ("error", m)]⟩],
            calls := [destroyOptions (.str u)],
            store := store1 }) := by
  rw [run_raised destroy req (Effects.start store) (.str u) e store1
    (getProp_username hbody hu) (truthy_str hne) hstore, hm]
  exact json_of_no_bigint _ 500 _ (by rw [hasBigInt_failedToDelete]; exact hserial)

/-- Witness of C4 amended: the store raises `new Error("connect ECONNREFUSED")`. -/
theorem store_error_is_500_witness :
    delete_user_by_username (raises (newError "connect ECONNREFUSED"))
        (delete_request "alice") (Effects.start ())
      = (.ok (),
          { sent := [⟨500, .obj [("ok", .bool false),
                                 ("message", .str "Failed to delete user"),
                                 ("error", .str "connect ECONNREFUSED")]⟩],
            calls := [destroyOptions (.str "alice")],
            store := () }) :=
  store_error_is_500 (raises (newError "connect ECONNREFUSED")) (delete_request "alice") () ()
    [("username", .str "alice")] "alice" (newError "connect ECONNREFUSED")
    (.str "connect ECONNREFUSED") rfl rfl (by decide) rfl rfl rfl

/-- C5, as stated, fails: when the store raises `new Error("")`, whose message
is the empty string, the 500 answer carries `error: ""`. -/
theorem empty_message_gives_empty_error :
    delete_user_by_username (raises (newError "")) (delete_request "alice") (Effects.start ())
      = (.ok (),
          { sent := [⟨500, .obj [("ok", .bool false),
                                 ("message", .str "Failed to delete user"),
                                 ("error", .str "")]⟩],
            calls := [destroyOptions (.str "alice")],
            store := () }) := by
  rw [outcome_of_store_error (raises (newError "")) (delete_request "alice") () ()
    [("username", .str "alice")] "alice" (newError "") "" rfl rfl (by decide) rfl rfl]
  rfl

/-- C5, amended: when the store's delete raises an error whose message is the
string `m`, the one response is a 500 whose `ok` is false and whose `error` is
`m` itself, so the field is a non-empty string exactly when `m` is non-empty. -/
theorem store_failure_surfaces_message {σ : Type} (destroy : Destroy σ) (req : Request)
    (store store1 : σ) (props : List (String × JSVal)) (u : String) (e : JSVal) (m : String)
    (hbody : req.body = .obj props)
    (hu : props.lookup "username" = some (.str u)) (hne : u ≠ "")
    (hstore : destroy (destroyOptions (.str u)) store = (.error e, store1))
    (hm : getProp e "message" = some (.str m)) :
    ∃ body : JSVal,
      (delete_user_by_username destroy req (Effects.start store)).2.sent = [⟨500, body⟩]
        ∧ getProp body "ok" = some (.bool false)
        ∧ getProp body "error" = some (.str m)
        ∧ (getProp body "error" = some (.str "") ↔ m = "") := by
  refine ⟨failedToDelete (.str m), ?_, ?_, ?_, ?_⟩
  · rw [outcome_of_store_error destroy req store store1 props u e m hbody hu hne hstore hm]
  · simp [getProp, failedToDelete, List.lookup]
  · simp [getProp, failedToDelete, List.lookup]
  · simp [getProp, failedToDelete, List.lookup]

/-- Witness of C5 amended: the store raises `new Error("connection lost")`. -/
theorem store_failure_surfaces_message_witness :
    ∃ body : JSVal,
      (delete_user_by_username (raises (newError "connection lost")) (delete_request "bob")
          (Effects.start ())).2.sent = [⟨500, body⟩]
        ∧ getProp body "ok" = some (.bool false)
        ∧ getProp body "error" = some (.str "connection lost")
        ∧ (getProp body "error" = some (.str "") ↔ "connection lost" = "") :=
  store_failure_surfaces_message (raises (newError "connection lost")) (delete_request "bob")
    () () [("username", .str "bob")] "bob" (newError "connection lost") "connection lost"
    rfl rfl (by decide) rfl rfl

/-! ## The route -/

/-- C7, as stated, fails: on Express 5, when the store rejects with
`undefined` the controller applied directly sends no response, and the route
answers 500 with the error page of Express. -/
theorem route_answers_for_rejected_controller :
    (delete_user_by_username (raises .undefined) (delete_request "alice")
        (Effects.start ())).2.sent = []
      ∧ (post_auth_delete_user (express5 (fun _ => .str "Internal Server Error"))
          (raises .undefined)
          { req := delete_request "alice", fx := Effects.start (), nextCalls := 0 }).fx.sent
        = [⟨500, .str "Internal Server Error"⟩] := by
  have h1 := run_raised (raises .undefined) (delete_request "alice") (Effects.start ())
    (.str "alice") .undefined () rfl (by decide) rfl
  refine ⟨?_, ?_⟩
  · rw [h1]
    rfl
  · unfold post_auth_delete_user authentication authorisation express_next delete_layer
    simp only []
    rw [h1]
    rfl

/-- C7, amended: `authentication` and `authorisation({ isAdmin })`, for every
`isAdmin`, do nothing but call `next` once, on the exchange they received (no
response written, request untouched); so the route `POST /auth/delete/user`,
for every request and caller and after two calls of `next`, issues the store
calls of the controller on the same request and leaves the store of the
controller, and it sends the responses of the controller, followed, when the
promise of the controller rejects, by what Express writes for the rejection:
on Express 4, which writes nothing, the route leaves what the controller
leaves. -/
theorem route_follows_controller {σ α : Type} (onRejected : OnRejected) (destroy : Destroy σ)
    (isAdmin : JSVal) (next : Exchange σ → α) (x : Exchange σ) :
    authentication next x = next x
      ∧ authorisation isAdmin next x = next x
      ∧ authentication (express_next id) x = { x with nextCalls := x.nextCalls + 1 }
      ∧ authorisation isAdmin (express_next id) x = { x with nextCalls := x.nextCalls + 1 }
      ∧ (post_auth_delete_user onRejected destroy x).req = x.req
      ∧ (post_auth_delete_user onRejected destroy x).nextCalls = x.nextCalls + 2
      ∧ (post_auth_delete_user onRejected destroy x).fx.calls
          = (delete_user_by_username destroy x.req x.fx).2.calls
      ∧ (post_auth_delete_user onRejected destroy x).fx.store
          = (delete_user_by_username destroy x.req x.fx).2.store
      ∧ (post_auth_delete_user onRejected destroy x).fx.sent
          = (delete_user_by_username destroy x.req x.fx).2.sent
              ++ (match (delete_user_by_username destroy x.req x.fx).1 with
                  | .ok _ => []
                  | .error e => onRejected e)
      ∧ (post_auth_delete_user express4 destroy x).fx
          = (delete_user_by_username destroy x.req x.fx).2 := by
  have hroute : ∀ r : OnRejected, post_auth_delete_user r destroy x
      = delete_layer r destroy { x with nextCalls := x.nextCalls + 1 + 1 } := fun _ => rfl
  refine ⟨rfl, rfl, rfl, rfl, ?_, ?_, ?_, ?_, ?_, ?_⟩ <;>
    rw [hroute] <;> unfold delete_layer <;> simp only [] <;>
    rcases hrun : delete_user_by_username destroy x.req x.fx with ⟨c, fx⟩ <;>
    rcases c with e | u <;> simp [express4]

/-! ## Deleting from a user store -/

/-- C6: on a store of records keyed by username, a delete of a non-empty
username `u` that is in the store is answered 200 with `ok: true`; after it no
record of `u` is left and the records of every other user are as they were;
and the same request on the resulting store is answered 404 with
`{ ok: false, message: "User not found" }`. -/
theorem delete_then_not_found (users : List User) (req : Request)
    (props : List (String × JSVal)) (u : String) (hbody : req.body = .obj props)
    (hu : props.lookup "username" = some (.str u)) (hne : u ≠ "")
    (hin : ∃ r ∈ users, r.username = u) :
    (delete_user_by_username UserModel.destroy req (Effects.start users)).1 = .ok ()
      ∧ (delete_user_by_username UserModel.destroy req (Effects.start users)).2.sent
          = [⟨200, .obj [("ok", .bool true), ("message", .str "User deleted successfully")]⟩]
      ∧ (∀ r ∈ (delete_user_by_username UserModel.destroy req (Effects.start users)).2.store,
          r.username ≠ u)
      ∧ (delete_user_by_username UserModel.destroy req (Effects.start users)).2.store
          = users.filter (fun r => r.username != u)
      ∧ delete_user_by_username UserModel.destroy req
          (Effects.start
            (delete_user_by_username UserModel.destroy req (Effects.start users)).2.store)
          = (.ok (),
              { sent := [⟨404, .obj [("ok", .bool false), ("message", .str "User not found")]⟩],
                calls := [destroyOptions (.str u)],
                store := users.filter (fun r => r.username != u) }) := by
  obtain ⟨r0, hr0, hr0u⟩ := hin
  have hpos : (users.filter (fun r => r.username == u)).length ≠ 0 := by
    intro h0
    have hnil : users.filter (fun r => r.username == u) = [] := List.length_eq_zero.mp h0
    have hmem : r0 ∈ users.filter (fun r => r.username == u) := by
      simp [List.mem_filter, hr0, hr0u]
    rw [hnil] at hmem
    cases hmem
  have hfirst := outcome_of_store_rows UserModel.destroy req users _ props u _ hbody hu hne
    (UserModel_destroy_str u users)
  have hgone : (users.filter (fun r => r.username != u)).filter (fun r => r.username == u)
      = [] := by
    simp [List.filter_filter, List.filter_eq_nil_iff]
  have hsame : (users.filter (fun r => r.username != u)).filter (fun r => r.username != u)
      = users.filter (fun r => r.username != u) := by
    simp [List.filter_filter]
  have hsecond := outcome_of_store_rows UserModel.destroy req
    (users.filter (fun r => r.username != u)) _ props u _ hbody hu hne
    (UserModel_destroy_str u (users.filter (fun r => r.username != u)))
  rw [hgone, hsame] at hsecond
  rw [if_neg hpos] at hfirst
  rw [hfirst]
  refine ⟨rfl, rfl, ?_, rfl, ?_⟩
  · intro r hr
    simpa [List.mem_filter] using (List.mem_filter.mp hr).2
  · rw [hsecond]
    rfl

/-- Witness of C6: "alice" and "bob" are in the store and "alice" is deleted. -/
theorem delete_then_not_found_witness :
    (delete_user_by_username UserModel.destroy (delete_request "alice")
        (Effects.start [⟨"alice", []⟩, ⟨"bob", []⟩])).2.sent
        = [⟨200, .obj [("ok", .bool true), ("message", .str "User deleted successfully")]⟩]
      ∧ delete_user_by_username UserModel.destroy (delete_request "alice")
          (Effects.start
            (delete_user_by_username UserModel.destroy (delete_request "alice")
              (Effects.start [⟨"alice", []⟩, ⟨"bob", []⟩])).2.store)
          = (.ok (),
              { sent := [⟨404, .obj [("ok", .bool false), ("message", .str "User not found")]⟩],
                calls := [destroyOptions (.str "alice")],
                store := [⟨"alice", []⟩, ⟨"bob", []⟩].filter
                  (fun r => r.username != "alice") }) :=
  have h := delete_then_not_found [⟨"alice", []⟩, ⟨"bob", []⟩] (delete_request "alice")
    [("username", .str "alice")] "alice" rfl rfl (by decide)
    ⟨⟨"alice", []⟩, List.mem_cons_self _ _, rfl⟩
  ⟨h.2.1, h.2.2.2.2⟩

/-! ## The store calls -/

/-- C8, as stated, fails: the body `{ username: 0 }` has a `username` that is
neither missing nor the empty string, and no destroy is issued for it (the
answer is 400). -/
theorem zero_username_issues_no_destroy :
    delete_user_by_username (reports 1)
        { headers := [], query := [], body := .obj [("username", JSVal.ofNat 0)] }
        (Effects.start ())
      = (.ok (),
          { sent := [⟨400, .obj [("ok", .bool false), ("message", .str "Username is required")]⟩],
            calls := [],
            store := () }) := by
  exact run_falsy (reports 1) _ (Effects.start ()) (JSVal.ofNat 0) rfl (by decide)

/-- C8, amended: the controller issues no store operation when `req.body` is
`null` or `undefined` or its `username` is falsy (missing, `""`, `null`,
`false`, `0`, `NaN`, `0n`), and otherwise exactly one destroy, whose
argument is `{ where: { username } }` with the one key `username` bound to the
body's value as it came; the store is then as that destroy left it. -/
theorem destroy_calls_issued {σ : Type} (destroy : Destroy σ) (req : Request) (store : σ) :
    (delete_user_by_username destroy req (Effects.start store)).2.calls
        = (match getProp req.body "username" with
          | some username =>
            if truthy username then [.obj [("where", .obj [("username", username)])]] else []
          | none => [])
      ∧ (delete_user_by_username destroy req (Effects.start store)).2.store
        = (match getProp req.body "username" with
          | some username =>
            if truthy username then
              (destroy (.obj [("where", .obj [("username", username)])]) store).2
            else store
          | none => store) := by
  cases hb : getProp req.body "username" with
  | none => rw [run_unreadable destroy req _ hb]; exact ⟨rfl, rfl⟩
  | some v =>
    cases ht : truthy v with
    | false => rw [run_falsy destroy req _ v hb ht]; simp [ht, Effects.start]
    | true =>
      have hopt : destroyOptions v = .obj [("where", .obj [("username", v)])] := rfl
      rcases hd : destroy (destroyOptions v) (Effects.start store).store with ⟨r, s1⟩
      have hd2 : destroy (.obj [("where", .obj [("username", v)])]) store = (r, s1) := hd
      cases r with
      | ok result =>
        rw [run_returned destroy req _ v result s1 hb ht hd]
        simp [hd2, hopt, ht, Effects.start]
      | error e =>
        rw [run_raised destroy req _ v e s1 hb ht hd]
        cases hm : getProp e "message" with
        | none => simp [hd2, hopt, ht, Effects.start]
        | some m =>
          dsimp only
          cases hbig : hasBigInt (failedToDelete m) with
          | false => rw [json_of_no_bigint _ _ _ hbig]; simp [hd2, hopt, ht, Effects.start]
          | true => rw [json_of_bigint _ _ _ hbig]; simp [hd2, hopt, ht, Effects.start]

/-! ## The profile page -/

/-- C9: whatever the request, `GET /profile` sends the one fixed document; the
document holds, in this order, the form (with the input whose `name` is
`other-username`) and the inline script; the script registers a submit
listener that reads the input's value, and its `fetch` is a POST to
`/auth/delete/user` whose body is the JSON of `{ username }` for that value. -/
theorem profile_page_is_static (req : Request) (value : String) :
    get_profile req = String.intercalate "\n" profile_lines
      ∧ profile_lines
          = profile_lines.take 12 ++ profile_form ++ [""] ++ profile_script
              ++ profile_lines.drop 43
      ∧ profile_form.head? = some "        <form id=\"delete-user-form\">"
      ∧ profile_form.getLast? = some "        </form>"
      ∧ "            <input type=\"text\" id=\"other-username\" name=\"other-username\" required>"
          ∈ profile_form
      ∧ profile_script.head? = some "        <script>"
      ∧ profile_script.getLast? = some "        </script>"
      ∧ (profile_script.drop 1).take 3
          = ["            document.getElementById(\"delete-user-form\").addEventListener(\"submit\", async (event) => \x7b",
             "                event.preventDefault();",
             "                const username = document.getElementById(\"other-username\").value;"]
      ∧ (profile_script.drop 6).take 8
          = ["                const response = await fetch(\x27/auth/delete/user\x27, \x7b",
             "                    method: \"POST\",",
             "                    headers: \x7b",
             "                        \"Content-Type\": \"application/json\"",
             "                    \x7d,",
             "                    body: JSON.stringify(\x7b username \x7d),",
             "                    credentials: \"include\"",
             "                \x7d);"]
      ∧ submit_listener_fetch value
          = { url := "/auth/delete/user",
              method := "POST",
              headers := [("Content-Type", "application/json")],
              json := .obj [("username", .str value)],
              credentials := "include" } := by
  refine ⟨rfl, ?_, ?_, ?_, ?_, ?_, ?_, ?_, ?_, rfl⟩
  · decide
  · decide
  · decide
  · decide
  · decide
  · decide
  · decide
  · decide

/-! ## Totality and the shape of the outcome -/

/-- C10, as stated, fails twice. When the store rejects with `undefined`, the
`catch` block's `error.message` throws: no response is sent and the promise of
the controller rejects. And when `req.body` is `undefined`, the answer is 500
although `username` is not truthy and the store was never called. -/
theorem controller_not_total :
    delete_user_by_username (raises .undefined) (delete_request "alice") (Effects.start ())
        = (.error (typeError "Cannot read properties of undefined (reading \x27message\x27)"),
            { sent := [], calls := [destroyOptions (.str "alice")], store := () })
      ∧ (delete_user_by_username (reports 1)
          { headers := [], query := [], body := .undefined } (Effects.start ())).2.sent.map
            Response.status = [500]
      ∧ (delete_user_by_username (reports 1)
          { headers := [], query := [], body := .undefined } (Effects.start ())).2.calls = [] := by
  refine ⟨?_, ?_, ?_⟩
  · rw [run_raised (raises .undefined) (delete_request "alice") (Effects.start ())
      (.str "alice") .undefined () rfl (by decide) rfl]
    rfl
  · rw [run_unreadable (reports 1) { headers := [], query := [], body := .undefined }
      (Effects.start ()) rfl]
    rfl
  · rw [run_unreadable (reports 1) { headers := [], query := [], body := .undefined }
      (Effects.start ()) rfl]
    rfl

/-- C10, amended: the controller always ends, with at most one response. Its
promise resolves exactly when one response was sent; none is sent exactly when
`username` is truthy and the store raised a value whose `message` cannot be
read (`null`, `undefined`) or cannot be serialised (holds a BigInt). A
response is one of the four fixed shapes, with `ok` true exactly for status
200. The status is 400 exactly when `req.body` can be read and `username` is
falsy; 404 exactly when `username` is truthy and the store returned a value
`=== 0`; 200 exactly when it returned any other value; 500 exactly when
`req.body` is `null` or `undefined`, or `username` is truthy and the store
raised a value whose `message` can be read and serialised. -/
theorem outcome_shape {σ : Type} (destroy : Destroy σ) (req : Request) (store : σ) :
    (delete_user_by_username destroy req (Effects.start store)).2.sent.length ≤ 1
      ∧ ((delete_user_by_username destroy req (Effects.start store)).1 = .ok ()
          ↔ (delete_user_by_username destroy req (Effects.start store)).2.sent.length = 1)
      ∧ ((delete_user_by_username destroy req (Effects.start store)).2.sent = []
          ↔ ∃ v e store1, getProp req.body "username" = some v ∧ truthy v = true
              ∧ destroy (destroyOptions v) store = (.error e, store1)
              ∧ (getProp e "message" = none
                  ∨ ∃ m, getProp e "message" = some m ∧ hasBigInt m = true))
      ∧ (∀ r ∈ (delete_user_by_username destroy req (Effects.start store)).2.sent,
          (r = ⟨400, usernameRequired⟩ ∨ r = ⟨404, userNotFound⟩ ∨ r = ⟨200, userDeleted⟩
              ∨ ∃ m, r = ⟨500, failedToDelete m⟩)
            ∧ getProp r.body "ok" = some (.bool (decide (r.status = 200))))
      ∧ ((delete_user_by_username destroy req (Effects.start store)).2.sent.map Response.status
            = [400]
          ↔ ∃ v, getProp req.body "username" = some v ∧ truthy v = false)
      ∧ ((delete_user_by_username destroy req (Effects.start store)).2.sent.map Response.status
            = [404]
          ↔ ∃ v result store1, getProp req.body "username" = some v ∧ truthy v = true
              ∧ destroy (destroyOptions v) store = (.ok result, store1)
              ∧ strictEqualsZero result = true)
      ∧ ((delete_user_by_username destroy req (Effects.start store)).2.sent.map Response.status
            = [200]
          ↔ ∃ v result store1, getProp req.body "username" = some v ∧ truthy v = true
              ∧ destroy (destroyOptions v) store = (.ok result, store1)
              ∧ strictEqualsZero result = false)
      ∧ ((delete_user_by_username destroy req (Effects.start store)).2.sent.map Response.status
            = [500]
          ↔ getProp req.body "username" = none
              ∨ ∃ v e store1 m, getProp req.body "username" = some v ∧ truthy v = true
                  ∧ destroy (destroyOptions v) store = (.error e, store1)
                  ∧ getProp e "message" = some m ∧ hasBigInt m = false) := by
  cases hb : getProp req.body "username" with
  | none =>
    rw [run_unreadable destroy req _ hb]
    simp [Effects.start, failedToDelete, getProp_obj, List.lookup]
  | some v =>
    cases ht : truthy v with
    | false =>
      rw [run_falsy destroy req _ v hb ht]
      simp [Effects.start, usernameRequired, getProp_obj, List.lookup, ht]
    | true =>
      rcases hd : destroy (destroyOptions v) (Effects.start store).store with ⟨r, s1⟩
      have hd2 : destroy (destroyOptions v) store = (r, s1) := hd
      cases r with
      | ok result =>
        rw [run_returned destroy req _ v result s1 hb ht hd]
        cases hz : strictEqualsZero result <;>
          simp [Effects.start, userNotFound, userDeleted, getProp_obj, List.lookup, ht, hd2, hz]
      | error e =>
        rw [run_raised destroy req _ v e s1 hb ht hd]
        cases hm : getProp e "message" with
        | none => simp [Effects.start, ht, hd2, hm]
        | some m =>
          dsimp only
          cases hbig : hasBigInt m with
          | false =>
            rw [json_of_no_bigint _ _ _ (by rw [hasBigInt_failedToDelete]; exact hbig)]
            simp [Effects.start, failedToDelete, getProp_obj, List.lookup, ht, hd2, hm, hbig]
          | true =>
            rw [json_of_bigint _ _ _ (by rw [hasBigInt_failedToDelete]; exact hbig)]
            simp [Effects.start, ht, hd2, hm, hbig]

end DeleteUser
